import Mathlib

/-!
Shallow embedding of the pytimelapse repository (src/camera.py, src/main.py,
src/video_utils.py) and verification of its specification claims.

External effects (cv2 device opens, frame reads, sleeps, subprocess runs,
filesystem calls) are modelled by environment records listing each effectful
call's outcome; the control flow of each Python function is translated
directly.
-/

namespace PyTimeLapse

/-! ### camera.py -/

/-- Python's `str.startswith`, over the character list of the string (the
Lean core `String.startsWith` is not kernel-reducible). -/
def pyStartsWith (s pre : String) : Bool :=
  pre.data.isPrefixOf s.data

/-- The two driver variants returned by the factory `get_camera`. -/
inductive CameraImpl where
  | macCamera
  | piCamera
  deriving DecidableEq, Repr

/-- The two exception types `get_camera` can raise: `CameraError` (the
repository's device error) and Python's built-in `ValueError`.  Messages are
elided. -/
inductive FactoryError where
  | cameraError
  | valueError
  deriving DecidableEq, Repr

/-- `camera.get_camera(os_type, config)`.  `sysPlatform` is the value of
`sys.platform` consulted by the `auto` branch. -/
def get_camera (osType : String) (sysPlatform : String) :
    Except FactoryError CameraImpl :=
  let resolved : Except FactoryError String :=
    if osType = "auto" then
      if sysPlatform = "darwin" then Except.ok "macos"
      else if pyStartsWith sysPlatform "linux" then Except.ok "linux"
      else Except.error FactoryError.cameraError
    else Except.ok osType
  match resolved with
  | Except.error e => Except.error e
  | Except.ok t =>
    if t = "macos" then Except.ok CameraImpl.macCamera
    else if t = "linux" then Except.ok CameraImpl.piCamera
    else Except.error FactoryError.valueError

/-- A `cv2.VideoCapture` handle; `opened` is what `isOpened()` reports. -/
structure CameraHandle where
  opened : Bool
  deriving DecidableEq, Repr

/-- Outcomes of the effectful cv2 calls made by `MacCamera.initialize`:
whether the first `VideoCapture` open reports opened, whether the retry does,
the configured resolution (if any), whether applying the resolution raises,
and whether some frame read during warm-up raises. -/
structure MacInitEnv where
  open1Opened : Bool
  open2Opened : Bool
  resolution : Option (Nat × Nat)
  setRaises : Bool
  warmupRaises : Bool
  deriving DecidableEq, Repr

/-- `MacCamera.initialize`.  Returns the final value of `self.capture` and
whether a `CameraError` was raised.  The whole body is wrapped in
`try/except Exception`, whose handler releases any handle, sets
`self.capture = None` and raises `CameraError`; warm-up frame drops
(`ret` false) are logged only, so the only warm-up failure mode modelled is
a read call raising. -/
def macInitialize (env : MacInitEnv) : Option CameraHandle × Bool :=
  if ¬ env.open1Opened ∧ ¬ env.open2Opened then
    (none, true)
  else if env.resolution.isSome ∧ env.setRaises then
    (none, true)
  else if env.warmupRaises then
    (none, true)
  else
    (some { opened := true }, false)

/-- `MacCamera.shutdown`.  Takes the current `self.capture`; returns the new
`self.capture` and whether `release()` was called. -/
def macShutdown (capture : Option CameraHandle) : Option CameraHandle × Bool :=
  match capture with
  | some h => if h.opened then (none, true) else (none, false)
  | none => (none, false)

/-- `PiCamera.shutdown`: a placeholder that only prints; no state. -/
def piShutdown (u : Unit) : Unit := u

/-! ### main.py -/

/-- Result of `main.get_operating_system()`. -/
inductive OsType where
  | macos
  | linux
  | unsupported
  deriving DecidableEq, Repr

/-- `main.get_operating_system`, as a function of `sys.platform`. -/
def get_operating_system (sysPlatform : String) : OsType :=
  if sysPlatform = "darwin" then OsType.macos
  else if pyStartsWith sysPlatform "linux" then OsType.linux
  else OsType.unsupported

/-- Outcome of one `camera.capture_image(filepath)` call in the loop:
returns `True`, returns a falsy value, raises `CameraError`, or raises some
other (unexpected) exception. -/
inductive CapOutcome where
  | ok
  | softFail
  | deviceError
  | unexpectedExn
  deriving DecidableEq, Repr

/-- One loop iteration's external events: the capture call's outcome and
whether a `KeyboardInterrupt` arrives during the `time.sleep(interval)`
call this iteration performs (if any). -/
structure StepInput where
  capture : CapOutcome
  sleepInterrupt : Bool
  deriving DecidableEq, Repr

/-- How the `while True` loop in `main` ends: limit-break, `break` from the
caught `KeyboardInterrupt` in the inter-capture sleep, a propagating
`KeyboardInterrupt` from the sleep in the `CameraError` handler, a
propagating unexpected exception from `capture_image`, or exhaustion of the
supplied event trace. -/
inductive StopReason where
  | limitReached
  | interruptedCaught
  | interruptRaised
  | unexpectedRaised
  | ranOut
  deriving DecidableEq, Repr

/-- Python's `f"{n:05d}"` for a natural number: left-pad the decimal digits
with zeros to width 5. -/
def zeroPad5 (n : Nat) : String :=
  let s := toString n
  if s.length < 5 then String.mk (List.replicate (5 - s.length) '0') ++ s
  else s

/-- The filename `f"image_{image_number:05d}.jpg"` built each iteration. -/
def imageFilename (n : Nat) : String :=
  "image_" ++ zeroPad5 n ++ ".jpg"

/-- Observable outcome of the capture loop: the final `capture_count`, the
image numbers of all attempted captures (each iteration computes
`image_number = capture_count + 1` before calling `capture_image`), the
image numbers and filenames of successfully written images, the stop
reason, and the number of completed `time.sleep(interval)` waits. -/
structure LoopResult where
  count : Nat
  attempted : List Nat
  written : List Nat
  files : List String
  reason : StopReason
  waits : Nat
  deriving DecidableEq, Repr

/-- The `while True` loop of `main` (src/main.py lines 120-155), for a given
`args.limit` (a Python int, possibly negative), current `capture_count`, and
trace of per-iteration external events.  The trace running out ends the loop
with reason `ranOut`. -/
def captureLoop (limit : Int) : Nat → List StepInput → LoopResult
  | count, [] =>
    if 0 < limit ∧ limit ≤ (count : Int) then
      ⟨count, [], [], [], StopReason.limitReached, 0⟩
    else ⟨count, [], [], [], StopReason.ranOut, 0⟩
  | count, e :: rest =>
    if 0 < limit ∧ limit ≤ (count : Int) then
      ⟨count, [], [], [], StopReason.limitReached, 0⟩
    else
      match e.capture with
      | CapOutcome.unexpectedExn =>
        ⟨count, [count + 1], [], [], StopReason.unexpectedRaised, 0⟩
      | CapOutcome.deviceError =>
        if e.sleepInterrupt then
          ⟨count, [count + 1], [], [], StopReason.interruptRaised, 0⟩
        else
          let r := captureLoop limit count rest
          ⟨r.count, (count + 1) :: r.attempted, r.written, r.files, r.reason,
            r.waits + 1⟩
      | CapOutcome.softFail =>
        if 0 < limit ∧ limit ≤ (count : Int) then
          ⟨count, [count + 1], [], [], StopReason.limitReached, 0⟩
        else if e.sleepInterrupt then
          ⟨count, [count + 1], [], [], StopReason.interruptedCaught, 0⟩
        else
          let r := captureLoop limit count rest
          ⟨r.count, (count + 1) :: r.attempted, r.written, r.files, r.reason,
            r.waits + 1⟩
      | CapOutcome.ok =>
        if 0 < limit ∧ limit ≤ (count : Int) + 1 then
          ⟨count + 1, [count + 1], [count + 1], [imageFilename (count + 1)],
            StopReason.limitReached, 0⟩
        else if e.sleepInterrupt then
          ⟨count + 1, [count + 1], [count + 1], [imageFilename (count + 1)],
            StopReason.interruptedCaught, 0⟩
        else
          let r := captureLoop limit (count + 1) rest
          ⟨r.count, (count + 1) :: r.attempted, (count + 1) :: r.written,
            imageFilename (count + 1) :: r.files, r.reason, r.waits + 1⟩

/-- The exceptions distinguished by `main`'s handlers. -/
inductive PyExn where
  | cameraError
  | keyboardInterrupt
  | unexpected
  deriving DecidableEq, Repr

/-- Outcome of `camera.initialize()` inside `CameraBase.__enter__`. -/
inductive InitResult where
  | ok
  | cameraError
  | unexpectedExn
  deriving DecidableEq, Repr

/-- Python `with` semantics for `CameraBase`: `__enter__` calls
`initialize`; if it raises, `__exit__` is NOT called and the exception
propagates.  Otherwise the body runs and `__exit__` (which calls
`shutdown`) runs on every exit path of the body.  Returns the propagating
exception (if any) and the number of `shutdown` calls. -/
def withCamera (enterExn : Option PyExn) (bodyExn : Option PyExn) :
    Option PyExn × Nat :=
  match enterExn with
  | some e => (some e, 0)
  | none => (bodyExn, 1)

/-- The exception propagating out of the `with` body, as a function of how
the loop ended. -/
def loopBodyExn (r : LoopResult) : Option PyExn :=
  match r.reason with
  | StopReason.interruptRaised => some PyExn.keyboardInterrupt
  | StopReason.unexpectedRaised => some PyExn.unexpected
  | _ => none

/-- The exception propagating out of `camera.initialize()`. -/
def initExn : InitResult → Option PyExn
  | InitResult.ok => none
  | InitResult.cameraError => some PyExn.cameraError
  | InitResult.unexpectedExn => some PyExn.unexpected

/-- Inputs of one `main()` run: the parsed arguments that matter
(`args.interval` as an exact rational, `args.limit`), the detected OS, the
outcome of `os.makedirs`, of `initialize`, and the loop's event trace. -/
structure MainEnv where
  interval : Rat
  limit : Int
  osType : OsType
  makedirsOk : Bool
  initResult : InitResult
  events : List StepInput
  deriving DecidableEq, Repr

/-- The process exit code of `main()` (src/main.py lines 74-189):
`sys.exit(1)` on non-positive interval, unsupported OS, `makedirs` failure,
or a `CameraError` reaching the `except CameraError` handler; the
`KeyboardInterrupt` and generic `Exception` handlers fall through to the
`finally` block and the process exits 0. -/
def mainExit (env : MainEnv) : Nat :=
  if env.interval ≤ 0 then 1
  else if env.osType = OsType.unsupported then 1
  else if env.makedirsOk = false then 1
  else
    match (withCamera (initExn env.initResult)
        (loopBodyExn (captureLoop env.limit 0 env.events))).1 with
    | some PyExn.cameraError => 1
    | some PyExn.keyboardInterrupt => 0
    | some PyExn.unexpected => 0
    | none => 0

/-- Number of `shutdown` calls made over one `main()` run. -/
def sessionShutdownCount (env : MainEnv) : Nat :=
  if env.interval ≤ 0 then 0
  else if env.osType = OsType.unsupported then 0
  else if env.makedirsOk = false then 0
  else (withCamera (initExn env.initResult)
      (loopBodyExn (captureLoop env.limit 0 env.events))).2

/-- The step input used to model an unbounded run of successful captures. -/
def okStep : StepInput :=
  { capture := CapOutcome.ok, sleepInterrupt := false }

/-- A concrete well-configured run whose initialization succeeds. -/
def envOkRun : MainEnv :=
  { interval := 1, limit := 2, osType := OsType.macos, makedirsOk := true,
    initResult := InitResult.ok, events := [okStep, okStep, okStep] }

/-- A concrete well-configured run whose initialization raises
`CameraError`. -/
def envInitFail : MainEnv :=
  { interval := 1, limit := 2, osType := OsType.macos, makedirsOk := true,
    initResult := InitResult.cameraError, events := [] }

/-- A concrete well-configured run in which `capture_image` raises a generic
(non-`CameraError`) exception. -/
def envUnexpectedRun : MainEnv :=
  { interval := 1, limit := 0, osType := OsType.macos, makedirsOk := true,
    initResult := InitResult.ok,
    events := [{ capture := CapOutcome.unexpectedExn, sleepInterrupt := false }] }

/-! ### video_utils.py -/

/-- Outcome of the `subprocess.run` call in `compile_video_ffmpeg`: the
process completes with a return code, or the call raises
`FileNotFoundError`, or it raises some other exception. -/
inductive RunOutcome where
  | completed (returncode : Int)
  | fileNotFound
  | otherExn
  deriving DecidableEq, Repr

/-- Outcomes of the effectful calls made by `compile_video_ffmpeg`: whether
`shutil.which("ffmpeg")` finds the binary, whether `output_filename` has a
non-empty parent directory component, whether that directory already
exists, whether `os.makedirs` on it raises `OSError`, and the
`subprocess.run` outcome. -/
structure FfmpegEnv where
  ffmpegPresent : Bool
  hasParentDir : Bool
  parentDirExists : Bool
  makedirsRaises : Bool
  runResult : RunOutcome
  deriving DecidableEq, Repr

/-- Observable effects of one `compile_video_ffmpeg` call: whether the
encoder child process was invoked, whether the parent directory of the
output was created, whether the encoder produced the output file (it does
exactly when it runs and exits 0), and the boolean return value. -/
structure CompileEffects where
  runInvoked : Bool
  dirCreated : Bool
  outputProduced : Bool
  returned : Bool
  deriving DecidableEq, Repr

/-- The tail of `compile_video_ffmpeg` from the `subprocess.run` call on:
`check=False`, so a completed process never raises; a non-zero return code
yields `False`, code 0 yields `True`; `FileNotFoundError` and any other
exception are caught and yield `False`. -/
def compileRun (env : FfmpegEnv) (dirCreated : Bool) : CompileEffects :=
  match env.runResult with
  | RunOutcome.completed code =>
    if code ≠ 0 then
      { runInvoked := true, dirCreated := dirCreated, outputProduced := false,
        returned := false }
    else
      { runInvoked := true, dirCreated := dirCreated, outputProduced := true,
        returned := true }
  | RunOutcome.fileNotFound =>
    { runInvoked := true, dirCreated := dirCreated, outputProduced := false,
      returned := false }
  | RunOutcome.otherExn =>
    { runInvoked := true, dirCreated := dirCreated, outputProduced := false,
      returned := false }

/-- `video_utils.compile_video_ffmpeg`: if `check_ffmpeg()` fails, return
`False` before any further action; otherwise create the output's parent
directory when needed (`OSError` there returns `False` before the encoder
runs); then run the encoder. -/
def compile_video_ffmpeg (env : FfmpegEnv) : CompileEffects :=
  if env.ffmpegPresent = false then
    { runInvoked := false, dirCreated := false, outputProduced := false,
      returned := false }
  else if env.hasParentDir ∧ ¬ env.parentDirExists then
    if env.makedirsRaises then
      { runInvoked := false, dirCreated := false, outputProduced := false,
        returned := false }
    else compileRun env true
  else compileRun env false

/-! ### Theorems for camera.py claims -/

/-- C6: the factory maps `macos` to the real USB/webcam variant, `linux` to
the stub variant, an unrecognized explicit identifier to `ValueError`, and
`auto` on an unresolvable host platform to `CameraError`. -/
theorem C6_factory_selection (s plat : String)
    (h1 : s ≠ "auto") (h2 : s ≠ "macos") (h3 : s ≠ "linux")
    (h4 : plat ≠ "darwin") (h5 : pyStartsWith plat "linux" = false) :
    get_camera "macos" plat = Except.ok CameraImpl.macCamera ∧
    get_camera "linux" plat = Except.ok CameraImpl.piCamera ∧
    get_camera s plat = Except.error FactoryError.valueError ∧
    get_camera "auto" plat = Except.error FactoryError.cameraError := by
  refine ⟨rfl, rfl, ?_, ?_⟩
  · simp [get_camera, h1, h2, h3]
  · simp [get_camera, h4, h5]

/-- C6 witness: concrete instantiation with `s = "windows"`,
`plat = "win32"`. -/
theorem C6_factory_selection_witness :
    get_camera "macos" "win32" = Except.ok CameraImpl.macCamera ∧
    get_camera "linux" "win32" = Except.ok CameraImpl.piCamera ∧
    get_camera "windows" "win32" = Except.error FactoryError.valueError ∧
    get_camera "auto" "win32" = Except.error FactoryError.cameraError :=
  C6_factory_selection "windows" "win32" (by decide) (by decide) (by decide)
    (by decide) (by decide)

/-- C7: every failed `MacCamera.initialize` (device cannot be opened even
after the retry, applying the configured resolution raises, or a warm-up
read raises) raises `CameraError` and leaves `self.capture = None` (closed
state, partially-acquired handle released). -/
theorem C7_init_failure_closed (env : MacInitEnv)
    (h : (¬ env.open1Opened ∧ ¬ env.open2Opened) ∨
         (env.resolution.isSome ∧ env.setRaises) ∨ env.warmupRaises) :
    (macInitialize env).1 = none ∧ (macInitialize env).2 = true := by
  rcases h with h | h | h
  · simp [macInitialize, h]
  · rcases h with ⟨h1, h2⟩
    by_cases ho : ¬ env.open1Opened ∧ ¬ env.open2Opened <;>
      simp [macInitialize, ho, h1, h2]
  · by_cases ho : ¬ env.open1Opened ∧ ¬ env.open2Opened
    · simp [macInitialize, ho]
    · by_cases hs : env.resolution.isSome ∧ env.setRaises <;>
        simp [macInitialize, ho, hs, h]

/-- C7 witness: a device that is not found on either open attempt. -/
theorem C7_init_failure_closed_witness :
    (macInitialize
      { open1Opened := false, open2Opened := false, resolution := none,
        setRaises := false, warmupRaises := false }).1 = none ∧
    (macInitialize
      { open1Opened := false, open2Opened := false, resolution := none,
        setRaises := false, warmupRaises := false }).2 = true :=
  C7_init_failure_closed _ (Or.inl (by decide))

/-- C8: shutdown is safe and idempotent in every state: it always leaves
`self.capture = None` (closed); it calls `release()` exactly when an open
device handle is held and is a no-op otherwise; a second shutdown changes
nothing and releases nothing; and the stub variant's shutdown is a pure
no-op. -/
theorem C8_shutdown_idempotent (c : Option CameraHandle) :
    (macShutdown c).1 = none ∧
    ((macShutdown c).2 = true ↔ c = some { opened := true }) ∧
    (macShutdown (macShutdown c).1).1 = (macShutdown c).1 ∧
    (macShutdown (macShutdown c).1).2 = false ∧
    piShutdown (piShutdown ()) = piShutdown () := by
  rcases c with _ | h
  · simp [macShutdown, piShutdown]
  · obtain ⟨ho⟩ := h
    cases ho <;> simp [macShutdown, piShutdown]


/-! ### Step lemmas for the capture loop -/

/-- Once the limit check at the top of an iteration fires, the loop stops at
once with the current count. -/
theorem captureLoop_stop (limit : Int) (count : Nat) (events : List StepInput)
    (h : 0 < limit ∧ limit ≤ (count : Int)) :
    captureLoop limit count events =
      ⟨count, [], [], [], StopReason.limitReached, 0⟩ := by
  cases events with
  | nil => simp only [captureLoop, if_pos h]
  | cons e rest => simp only [captureLoop, if_pos h]

/-- An exhausted event trace ends the loop with reason `ranOut`. -/
theorem captureLoop_nil (limit : Int) (count : Nat)
    (h : ¬ (0 < limit ∧ limit ≤ (count : Int))) :
    captureLoop limit count [] = ⟨count, [], [], [], StopReason.ranOut, 0⟩ := by
  simp only [captureLoop, if_neg h]

/-- A generic exception from `capture_image` propagates out of the loop. -/
theorem captureLoop_unexpected (limit : Int) (count : Nat) (si : Bool)
    (rest : List StepInput) (h : ¬ (0 < limit ∧ limit ≤ (count : Int))) :
    captureLoop limit count
        ({ capture := CapOutcome.unexpectedExn, sleepInterrupt := si } :: rest) =
      ⟨count, [count + 1], [], [], StopReason.unexpectedRaised, 0⟩ := by
  simp only [captureLoop, if_neg h]

/-- A `CameraError` followed by an interrupt during the handler's sleep:
the `KeyboardInterrupt` propagates out of the loop. -/
theorem captureLoop_err_interrupt (limit : Int) (count : Nat)
    (rest : List StepInput) (h : ¬ (0 < limit ∧ limit ≤ (count : Int))) :
    captureLoop limit count
        ({ capture := CapOutcome.deviceError, sleepInterrupt := true } :: rest) =
      ⟨count, [count + 1], [], [], StopReason.interruptRaised, 0⟩ := by
  simp only [captureLoop, if_neg h]
  simp

/-- A `CameraError` from `capture_image`: the handler sleeps and the loop
continues unchanged except for the recorded attempt and wait. -/
theorem captureLoop_err_cont (limit : Int) (count : Nat)
    (rest : List StepInput) (h : ¬ (0 < limit ∧ limit ≤ (count : Int))) :
    captureLoop limit count
        ({ capture := CapOutcome.deviceError, sleepInterrupt := false } :: rest) =
      ⟨(captureLoop limit count rest).count,
        (count + 1) :: (captureLoop limit count rest).attempted,
        (captureLoop limit count rest).written,
        (captureLoop limit count rest).files,
        (captureLoop limit count rest).reason,
        (captureLoop limit count rest).waits + 1⟩ := by
  simp only [captureLoop, if_neg h]
  simp

/-- A falsy `capture_image` return with an interrupt during the
inter-capture sleep: the interrupt is caught and breaks the loop. -/
theorem captureLoop_softFail_interrupt (limit : Int) (count : Nat)
    (rest : List StepInput) (h : ¬ (0 < limit ∧ limit ≤ (count : Int))) :
    captureLoop limit count
        ({ capture := CapOutcome.softFail, sleepInterrupt := true } :: rest) =
      ⟨count, [count + 1], [], [], StopReason.interruptedCaught, 0⟩ := by
  simp only [captureLoop, if_neg h]
  simp

/-- A falsy `capture_image` return: warn and continue without incrementing
the count. -/
theorem captureLoop_softFail_cont (limit : Int) (count : Nat)
    (rest : List StepInput) (h : ¬ (0 < limit ∧ limit ≤ (count : Int))) :
    captureLoop limit count
        ({ capture := CapOutcome.softFail, sleepInterrupt := false } :: rest) =
      ⟨(captureLoop limit count rest).count,
        (count + 1) :: (captureLoop limit count rest).attempted,
        (captureLoop limit count rest).written,
        (captureLoop limit count rest).files,
        (captureLoop limit count rest).reason,
        (captureLoop limit count rest).waits + 1⟩ := by
  simp only [captureLoop, if_neg h]
  simp

/-- A successful capture that reaches the limit: the post-capture limit
check breaks out of the loop at once. -/
theorem captureLoop_ok_limit (limit : Int) (count : Nat) (si : Bool)
    (rest : List StepInput) (h : ¬ (0 < limit ∧ limit ≤ (count : Int)))
    (h2 : 0 < limit ∧ limit ≤ (count : Int) + 1) :
    captureLoop limit count
        ({ capture := CapOutcome.ok, sleepInterrupt := si } :: rest) =
      ⟨count + 1, [count + 1], [count + 1], [imageFilename (count + 1)],
        StopReason.limitReached, 0⟩ := by
  simp only [captureLoop, if_neg h, if_pos h2]

/-- A successful capture below the limit, then an interrupt during the
inter-capture sleep: caught, and the loop breaks keeping the capture. -/
theorem captureLoop_ok_interrupt (limit : Int) (count : Nat)
    (rest : List StepInput) (h : ¬ (0 < limit ∧ limit ≤ (count : Int)))
    (h2 : ¬ (0 < limit ∧ limit ≤ (count : Int) + 1)) :
    captureLoop limit count
        ({ capture := CapOutcome.ok, sleepInterrupt := true } :: rest) =
      ⟨count + 1, [count + 1], [count + 1], [imageFilename (count + 1)],
        StopReason.interruptedCaught, 0⟩ := by
  simp only [captureLoop, if_neg h, if_neg h2]
  simp

/-- A successful capture below the limit: the count advances and the loop
continues. -/
theorem captureLoop_ok_cont (limit : Int) (count : Nat)
    (rest : List StepInput) (h : ¬ (0 < limit ∧ limit ≤ (count : Int)))
    (h2 : ¬ (0 < limit ∧ limit ≤ (count : Int) + 1)) :
    captureLoop limit count
        ({ capture := CapOutcome.ok, sleepInterrupt := false } :: rest) =
      ⟨(captureLoop limit (count + 1) rest).count,
        (count + 1) :: (captureLoop limit (count + 1) rest).attempted,
        (count + 1) :: (captureLoop limit (count + 1) rest).written,
        imageFilename (count + 1) :: (captureLoop limit (count + 1) rest).files,
        (captureLoop limit (count + 1) rest).reason,
        (captureLoop limit (count + 1) rest).waits + 1⟩ := by
  simp only [captureLoop, if_neg h, if_neg h2]
  simp

/-! ### Invariants of the capture loop -/

/-- The count never decreases; the written image numbers are exactly the
consecutive range starting one past the initial count; the written
filenames are those numbers formatted by `imageFilename`. -/
theorem captureLoop_written_range (limit : Int) :
    ∀ (events : List StepInput) (count : Nat),
      count ≤ (captureLoop limit count events).count ∧
      (captureLoop limit count events).written =
        List.range' (count + 1) ((captureLoop limit count events).count - count) ∧
      (captureLoop limit count events).files =
        (captureLoop limit count events).written.map imageFilename := by
  intro events
  induction events with
  | nil =>
    intro count
    by_cases h : 0 < limit ∧ limit ≤ (count : Int)
    · rw [captureLoop_stop limit count [] h]
      simp
    · rw [captureLoop_nil limit count h]
      simp
  | cons e rest ih =>
    intro count
    obtain ⟨cap, si⟩ := e
    by_cases h : 0 < limit ∧ limit ≤ (count : Int)
    · rw [captureLoop_stop limit count _ h]
      simp
    · cases cap with
      | unexpectedExn =>
        rw [captureLoop_unexpected limit count si rest h]
        simp
      | deviceError =>
        cases si with
        | true =>
          rw [captureLoop_err_interrupt limit count rest h]
          simp
        | false =>
          rw [captureLoop_err_cont limit count rest h]
          simpa using ih count
      | softFail =>
        cases si with
        | true =>
          rw [captureLoop_softFail_interrupt limit count rest h]
          simp
        | false =>
          rw [captureLoop_softFail_cont limit count rest h]
          simpa using ih count
      | ok =>
        by_cases h2 : 0 < limit ∧ limit ≤ (count : Int) + 1
        · rw [captureLoop_ok_limit limit count si rest h h2]
          simp
        · obtain ⟨ih1, ih2, ih3⟩ := ih (count + 1)
          cases si with
          | true =>
            rw [captureLoop_ok_interrupt limit count rest h h2]
            simp
          | false =>
            rw [captureLoop_ok_cont limit count rest h h2]
            refine ⟨?_, ?_, ?_⟩
            · show count ≤ (captureLoop limit (count + 1) rest).count
              omega
            · show (count + 1) :: (captureLoop limit (count + 1) rest).written =
                List.range' (count + 1)
                  ((captureLoop limit (count + 1) rest).count - count)
              have hsub : (captureLoop limit (count + 1) rest).count - count =
                  ((captureLoop limit (count + 1) rest).count - (count + 1)) + 1 := by
                omega
              rw [hsub, List.range'_succ, ih2]
            · show imageFilename (count + 1) ::
                  (captureLoop limit (count + 1) rest).files =
                List.map imageFilename
                  ((count + 1) :: (captureLoop limit (count + 1) rest).written)
              simp [ih3]

/-- With a positive limit, the success count never exceeds the limit. -/
theorem captureLoop_count_le (limit : Int) (hl : 0 < limit) :
    ∀ (events : List StepInput) (count : Nat),
      (count : Int) ≤ limit →
      ((captureLoop limit count events).count : Int) ≤ limit := by
  intro events
  induction events with
  | nil =>
    intro count hc
    by_cases h : 0 < limit ∧ limit ≤ (count : Int)
    · rw [captureLoop_stop limit count [] h]
      exact hc
    · rw [captureLoop_nil limit count h]
      exact hc
  | cons e rest ih =>
    intro count hc
    obtain ⟨cap, si⟩ := e
    by_cases h : 0 < limit ∧ limit ≤ (count : Int)
    · rw [captureLoop_stop limit count _ h]
      exact hc
    · have hcnt : (count : Int) + 1 ≤ limit := by
        rcases not_and_or.mp h with h' | h'
        · exact absurd hl h'
        · omega
      cases cap with
      | unexpectedExn =>
        rw [captureLoop_unexpected limit count si rest h]
        exact hc
      | deviceError =>
        cases si with
        | true =>
          rw [captureLoop_err_interrupt limit count rest h]
          exact hc
        | false =>
          rw [captureLoop_err_cont limit count rest h]
          exact ih count hc
      | softFail =>
        cases si with
        | true =>
          rw [captureLoop_softFail_interrupt limit count rest h]
          exact hc
        | false =>
          rw [captureLoop_softFail_cont limit count rest h]
          exact ih count hc
      | ok =>
        by_cases h2 : 0 < limit ∧ limit ≤ (count : Int) + 1
        · rw [captureLoop_ok_limit limit count si rest h h2]
          show ((count + 1 : Nat) : Int) ≤ limit
          push_cast
          exact hcnt
        · cases si with
          | true =>
            rw [captureLoop_ok_interrupt limit count rest h h2]
            show ((count + 1 : Nat) : Int) ≤ limit
            push_cast
            exact hcnt
          | false =>
            rw [captureLoop_ok_cont limit count rest h h2]
            exact ih (count + 1) (by push_cast; exact hcnt)

/-- With a positive limit, every attempted image number is at most the
limit: the loop never starts a `limit + 1`-th capture attempt. -/
theorem captureLoop_attempted_le (limit : Int) (hl : 0 < limit) :
    ∀ (events : List StepInput) (count : Nat),
      ∀ n ∈ (captureLoop limit count events).attempted, (n : Int) ≤ limit := by
  intro events
  induction events with
  | nil =>
    intro count n hn
    by_cases h : 0 < limit ∧ limit ≤ (count : Int)
    · rw [captureLoop_stop limit count [] h] at hn
      simp at hn
    · rw [captureLoop_nil limit count h] at hn
      simp at hn
  | cons e rest ih =>
    intro count n hn
    obtain ⟨cap, si⟩ := e
    by_cases h : 0 < limit ∧ limit ≤ (count : Int)
    · rw [captureLoop_stop limit count _ h] at hn
      simp at hn
    · have hcnt : (count : Int) + 1 ≤ limit := by
        rcases not_and_or.mp h with h' | h'
        · exact absurd hl h'
        · omega
      cases cap with
      | unexpectedExn =>
        rw [captureLoop_unexpected limit count si rest h] at hn
        simp at hn
        subst hn
        push_cast
        exact hcnt
      | deviceError =>
        cases si with
        | true =>
          rw [captureLoop_err_interrupt limit count rest h] at hn
          simp at hn
          subst hn
          push_cast
          exact hcnt
        | false =>
          rw [captureLoop_err_cont limit count rest h] at hn
          simp at hn
          rcases hn with hn | hn
          · subst hn
            push_cast
            exact hcnt
          · exact ih count n hn
      | softFail =>
        cases si with
        | true =>
          rw [captureLoop_softFail_interrupt limit count rest h] at hn
          simp at hn
          subst hn
          push_cast
          exact hcnt
        | false =>
          rw [captureLoop_softFail_cont limit count rest h] at hn
          simp at hn
          rcases hn with hn | hn
          · subst hn
            push_cast
            exact hcnt
          · exact ih count n hn
      | ok =>
        by_cases h2 : 0 < limit ∧ limit ≤ (count : Int) + 1
        · rw [captureLoop_ok_limit limit count si rest h h2] at hn
          simp at hn
          subst hn
          push_cast
          exact hcnt
        · cases si with
          | true =>
            rw [captureLoop_ok_interrupt limit count rest h h2] at hn
            simp at hn
            subst hn
            push_cast
            exact hcnt
          | false =>
            rw [captureLoop_ok_cont limit count rest h h2] at hn
            simp at hn
            rcases hn with hn | hn
            · subst hn
              push_cast
              exact hcnt
            · exact ih (count + 1) n hn

/-- With a positive limit, a run whose final count equals the limit ended
with the limit-reached break (the loop stops at once upon reaching it). -/
theorem captureLoop_reason_at_limit (limit : Int) (hl : 0 < limit) :
    ∀ (events : List StepInput) (count : Nat),
      ((captureLoop limit count events).count : Int) = limit →
      (captureLoop limit count events).reason = StopReason.limitReached := by
  intro events
  induction events with
  | nil =>
    intro count heq
    by_cases h : 0 < limit ∧ limit ≤ (count : Int)
    · rw [captureLoop_stop limit count [] h]
    · rw [captureLoop_nil limit count h] at heq ⊢
      exact absurd ⟨hl, le_of_eq heq.symm⟩ h
  | cons e rest ih =>
    intro count heq
    obtain ⟨cap, si⟩ := e
    by_cases h : 0 < limit ∧ limit ≤ (count : Int)
    · rw [captureLoop_stop limit count _ h]
    · cases cap with
      | unexpectedExn =>
        rw [captureLoop_unexpected limit count si rest h] at heq
        exact absurd ⟨hl, le_of_eq heq.symm⟩ h
      | deviceError =>
        cases si with
        | true =>
          rw [captureLoop_err_interrupt limit count rest h] at heq
          exact absurd ⟨hl, le_of_eq heq.symm⟩ h
        | false =>
          rw [captureLoop_err_cont limit count rest h] at heq ⊢
          exact ih count heq
      | softFail =>
        cases si with
        | true =>
          rw [captureLoop_softFail_interrupt limit count rest h] at heq
          exact absurd ⟨hl, le_of_eq heq.symm⟩ h
        | false =>
          rw [captureLoop_softFail_cont limit count rest h] at heq ⊢
          exact ih count heq
      | ok =>
        by_cases h2 : 0 < limit ∧ limit ≤ (count : Int) + 1
        · rw [captureLoop_ok_limit limit count si rest h h2]
        · cases si with
          | true =>
            rw [captureLoop_ok_interrupt limit count rest h h2] at heq
            refine absurd ⟨hl, ?_⟩ h2
            have : ((count + 1 : Nat) : Int) = limit := heq
            push_cast at this
            omega
          | false =>
            rw [captureLoop_ok_cont limit count rest h h2] at heq ⊢
            exact ih (count + 1) heq

/-- With limit 0 no bound applies: a trace of `N` successful captures
yields exactly `N` more successes. -/
theorem captureLoop_unbounded (N : Nat) :
    ∀ count : Nat,
      (captureLoop 0 count (List.replicate N okStep)).count = count + N := by
  induction N with
  | zero =>
    intro count
    rw [List.replicate_zero, captureLoop_nil 0 count (by omega)]
    rfl
  | succ n ih =>
    intro count
    rw [List.replicate_succ]
    have h : ¬ ((0 : Int) < 0 ∧ (0 : Int) ≤ (count : Int)) := by omega
    have h2 : ¬ ((0 : Int) < 0 ∧ (0 : Int) ≤ (count : Int) + 1) := by omega
    show (captureLoop 0 count
        ({ capture := CapOutcome.ok, sleepInterrupt := false } ::
          List.replicate n okStep)).count = count + (n + 1)
    rw [captureLoop_ok_cont 0 count (List.replicate n okStep) h h2]
    show (captureLoop 0 (count + 1) (List.replicate n okStep)).count = count + (n + 1)
    rw [ih (count + 1)]
    omega

/-! ### Theorems for main.py claims -/

/-- C1 (amended): the exit code of `main` is always 0 or 1, and it is 1
exactly on invalid configuration (interval <= 0), unsupported platform,
output-directory creation failure, or a `CameraError` during setup.  A
generic unexpected exception caught at the top level is logged and the
process exits 0, not non-zero: the `except Exception` handler falls
through to `finally` without calling `sys.exit`. -/
theorem C1_exit_codes_amended (env : MainEnv) :
    (mainExit env = 0 ∨ mainExit env = 1) ∧
    (mainExit env = 1 ↔
      env.interval ≤ 0 ∨ env.osType = OsType.unsupported ∨
      env.makedirsOk = false ∨ env.initResult = InitResult.cameraError) := by
  by_cases h1 : env.interval ≤ 0
  · simp [mainExit, h1]
  · by_cases h2 : env.osType = OsType.unsupported
    · simp [mainExit, h1, h2]
    · by_cases h3 : env.makedirsOk = false
      · simp [mainExit, h1, h2, h3]
      · cases h4 : env.initResult with
        | ok =>
          cases h5 : (captureLoop env.limit 0 env.events).reason <;>
            simp [mainExit, h1, h2, h3, h4, h5, withCamera, initExn,
              loopBodyExn]
        | cameraError =>
          simp [mainExit, h1, h2, h3, h4, withCamera, initExn]
        | unexpectedExn =>
          simp [mainExit, h1, h2, h3, h4, withCamera, initExn]

/-- C1 counterexample: a well-configured run in which `capture_image`
raises a generic (non-`CameraError`) exception, which propagates to the
top-level `except Exception` handler, yet the process exit code is 0 —
refuting the claim that a generic unexpected exception yields a non-zero
exit. -/
theorem C1_exit_codes_counterexample :
    (captureLoop envUnexpectedRun.limit 0 envUnexpectedRun.events).reason =
      StopReason.unexpectedRaised ∧
    mainExit envUnexpectedRun = 0 := by
  constructor <;> decide

/-- C2 (amended): whenever configuration is valid, `shutdown` is invoked
exactly once per session if `initialize` succeeds — on every exit path of
the `with` body (normal completion, limit, cancellation, per-frame error,
unexpected exception) — but zero times if `initialize` itself raises,
because Python skips `__exit__` when `__enter__` raises. -/
theorem C2_shutdown_amended (env : MainEnv)
    (h1 : ¬ env.interval ≤ 0) (h2 : env.osType ≠ OsType.unsupported)
    (h3 : env.makedirsOk = true) :
    (env.initResult = InitResult.ok → sessionShutdownCount env = 1) ∧
    (env.initResult ≠ InitResult.ok → sessionShutdownCount env = 0) := by
  cases h4 : env.initResult <;>
    simp [sessionShutdownCount, h1, h2, h3, h4, withCamera, initExn]

/-- C2 witness: a concrete well-configured run with successful
initialization. -/
theorem C2_shutdown_amended_witness :
    (envOkRun.initResult = InitResult.ok → sessionShutdownCount envOkRun = 1) ∧
    (envOkRun.initResult ≠ InitResult.ok → sessionShutdownCount envOkRun = 0) :=
  C2_shutdown_amended envOkRun (by decide) (by decide) (by decide)

/-- C2 counterexample: on a well-configured run whose `initialize` raises
`CameraError`, `shutdown` is invoked zero times, not once — `__enter__`
raised, so the context manager never calls `__exit__`. -/
theorem C2_shutdown_counterexample :
    envInitFail.initResult = InitResult.cameraError ∧
    sessionShutdownCount envInitFail = 0 := by
  constructor <;> decide

/-- C3: starting from count 0, the written image numbers of any run are
exactly `1, …, N` in order (N the number of successful captures), with no
gaps, and the written filenames are exactly those numbers formatted as
`image_XXXXX.jpg` by the 5-digit zero-padded `imageFilename`. -/
theorem C3_sequence_numbers (limit : Int) (events : List StepInput) :
    (captureLoop limit 0 events).written =
      List.range' 1 (captureLoop limit 0 events).count ∧
    (captureLoop limit 0 events).files =
      (List.range' 1 (captureLoop limit 0 events).count).map imageFilename := by
  obtain ⟨h1, h2, h3⟩ := captureLoop_written_range limit events 0
  constructor
  · simpa using h2
  · rw [h3]
    have hw : (captureLoop limit 0 events).written =
        List.range' 1 (captureLoop limit 0 events).count := by simpa using h2
    rw [hw]

/-- C4: for a positive limit the loop performs at most `limit` successful
captures, never starts an attempt numbered beyond `limit`, and a run that
reaches the limit stopped because of it; for limit 0 no upper bound
applies (a trace of N successes yields N captures, for every N). -/
theorem C4_limit_bound (limit : Int) (events : List StepInput) (N : Nat)
    (h : 0 < limit) :
    ((captureLoop limit 0 events).count : Int) ≤ limit ∧
    ((captureLoop limit 0 events).attempted.all
      (fun n => decide ((n : Int) ≤ limit))) = true ∧
    (((captureLoop limit 0 events).count : Int) = limit →
      (captureLoop limit 0 events).reason = StopReason.limitReached) ∧
    (captureLoop 0 0 (List.replicate N okStep)).count = N := by
  refine ⟨?_, ?_, ?_, ?_⟩
  · exact captureLoop_count_le limit h events 0 (by exact_mod_cast h.le)
  · rw [List.all_eq_true]
    intro x hx
    simpa using captureLoop_attempted_le limit h events 0 x hx
  · exact captureLoop_reason_at_limit limit h events 0
  · simpa using captureLoop_unbounded N 0

/-- C4 witness: limit 2 with three available successful captures stops
after exactly 2, and limit 0 with three successes takes all 3. -/
theorem C4_limit_bound_witness :
    (0 : Int) < 2 ∧
    (((captureLoop 2 0 [okStep, okStep, okStep]).count : Int) ≤ 2 ∧
     ((captureLoop 2 0 [okStep, okStep, okStep]).attempted.all
       (fun n => decide ((n : Int) ≤ 2))) = true ∧
     (((captureLoop 2 0 [okStep, okStep, okStep]).count : Int) = 2 →
       (captureLoop 2 0 [okStep, okStep, okStep]).reason =
         StopReason.limitReached) ∧
     (captureLoop 0 0 (List.replicate 3 okStep)).count = 3) :=
  ⟨by decide, C4_limit_bound 2 [okStep, okStep, okStep] 3 (by decide)⟩

/-- C5: a per-frame `CameraError` below the limit leaves the session
intact: the loop records the attempt, completes one interval wait, and
then behaves exactly as if the failed iteration had not happened — same
final count (no increment), same written files, same stop reason.
Moreover, with valid configuration and successful initialization, `main`
exits 0 whatever the loop's events — only an error raised during device
initialization is fatal to the session. -/
theorem C5_per_frame_error (limit : Int) (count : Nat)
    (rest : List StepInput) (env : MainEnv)
    (h : ¬ (0 < limit ∧ limit ≤ (count : Int))) :
    captureLoop limit count
        ({ capture := CapOutcome.deviceError, sleepInterrupt := false } :: rest) =
      { count := (captureLoop limit count rest).count,
        attempted := (count + 1) :: (captureLoop limit count rest).attempted,
        written := (captureLoop limit count rest).written,
        files := (captureLoop limit count rest).files,
        reason := (captureLoop limit count rest).reason,
        waits := (captureLoop limit count rest).waits + 1 } ∧
    (¬ env.interval ≤ 0 → env.osType ≠ OsType.unsupported →
      env.makedirsOk = true → env.initResult = InitResult.ok →
      mainExit env = 0) := by
  constructor
  · exact captureLoop_err_cont limit count rest h
  · intro h1 h2 h3 h4
    cases h5 : (captureLoop env.limit 0 env.events).reason <;>
      simp [mainExit, h1, h2, h3, h4, h5, withCamera, initExn, loopBodyExn]

/-- C5 witness: the failed first attempt of `envOkRun`-like runs, at
concrete inputs. -/
theorem C5_per_frame_error_witness :
    ¬ ((0 : Int) < 0 ∧ (0 : Int) ≤ ((0 : Nat) : Int)) ∧
    (captureLoop 0 0
        ({ capture := CapOutcome.deviceError, sleepInterrupt := false } :: []) =
      { count := (captureLoop 0 0 []).count,
        attempted := (0 + 1) :: (captureLoop 0 0 []).attempted,
        written := (captureLoop 0 0 []).written,
        files := (captureLoop 0 0 []).files,
        reason := (captureLoop 0 0 []).reason,
        waits := (captureLoop 0 0 []).waits + 1 } ∧
     (¬ envOkRun.interval ≤ 0 → envOkRun.osType ≠ OsType.unsupported →
       envOkRun.makedirsOk = true → envOkRun.initResult = InitResult.ok →
       mainExit envOkRun = 0)) :=
  ⟨by decide, C5_per_frame_error 0 0 [] envOkRun (by decide)⟩

/-! ### Theorems for video_utils.py claims -/

/-- C9: when the encoder binary is not discoverable, `compile_video_ffmpeg`
returns failure before any further action: no child process is invoked, no
output directory is created, and no output file is produced. -/
theorem C9_missing_encoder (env : FfmpegEnv)
    (h : env.ffmpegPresent = false) :
    compile_video_ffmpeg env =
      { runInvoked := false, dirCreated := false, outputProduced := false,
        returned := false } := by
  simp [compile_video_ffmpeg, h]

/-- C9 witness: a concrete call with the binary missing and everything
else primed to succeed. -/
theorem C9_missing_encoder_witness :
    ({ ffmpegPresent := false, hasParentDir := true, parentDirExists := false,
       makedirsRaises := false,
       runResult := RunOutcome.completed 0 } : FfmpegEnv).ffmpegPresent
        = false ∧
    compile_video_ffmpeg
        { ffmpegPresent := false, hasParentDir := true,
          parentDirExists := false, makedirsRaises := false,
          runResult := RunOutcome.completed 0 } =
      { runInvoked := false, dirCreated := false, outputProduced := false,
        returned := false } :=
  ⟨rfl, C9_missing_encoder _ rfl⟩

/-- C10: `compile_video_ffmpeg` is total (the embedding returns an effect
record for every environment — every exception the encoder execution can
raise is caught) and returns `True` exactly when the binary is present,
the output directory step does not fail, and the encoder process exits
with code 0; every failure path returns `False`. -/
theorem C10_compile_total_iff (env : FfmpegEnv) :
    (compile_video_ffmpeg env).returned = true ↔
      (env.ffmpegPresent = true ∧
       ¬ (env.hasParentDir = true ∧ env.parentDirExists = false ∧
          env.makedirsRaises = true) ∧
       env.runResult = RunOutcome.completed 0) := by
  obtain ⟨fp, hp, pe, mr, rr⟩ := env
  cases rr with
  | completed code =>
    by_cases hc : code = 0 <;>
      cases fp <;> cases hp <;> cases pe <;> cases mr <;>
        simp [compile_video_ffmpeg, compileRun, hc]
  | fileNotFound =>
    cases fp <;> cases hp <;> cases pe <;> cases mr <;>
      simp [compile_video_ffmpeg, compileRun]
  | otherExn =>
    cases fp <;> cases hp <;> cases pe <;> cases mr <;>
      simp [compile_video_ffmpeg, compileRun]

end PyTimeLapse
